import Mathlib

/-!
Verification development for the homeassistant-config repository.

The repository consists of AppDaemon apps: a notification-routing and
conditional-watch engine (the Notifier), an Automower controller
(rain / mowing-session rules), and a GarageDoor controller (open-at-night
alert with a cancellable delayed timer).

The Automower and GarageDoor controllers are embedded from their Python
sources (src/appdaemon/apps/automower.py, src/appdaemon/apps/garage_door.py).
The Notifier's source file (apps/notifier.py) is not part of the provided
sources (only its test suite is), so the Notifier is modelled from the
specification's description of the Notification Router and the
Deferred/Conditional Notification Tracker.
-/

namespace Notifier

/-- Modelled from the spec: a Recipient from the static configuration
(spec §3 "Recipient"): `name` is the unique key, `notificationService`
the notification channel, `proximityId` the proximity sensor entity. -/
structure Person where
  name : String
  notificationService : String
  proximityId : String
deriving Repr, DecidableEq

/-- Modelled from the spec: the routing actions of the Notification Router
(spec §4.1 action-resolution table). -/
inductive NotifierAction where
  | send_to_person (name : String)
  | send_to_all
  | send_to_present
  | send_to_absent
  | send_to_nearest
  | send_when_present
deriving Repr, DecidableEq

/-- Modelled from the spec: one watch condition of an `until` list
(spec §6: `{entity_id, old_state?, new_state?}`). -/
structure WatchCondition where
  entity_id : String
  old_state : Option String
  new_state : Option String
deriving Repr, DecidableEq

/-- Modelled from the spec: a NotificationRequest (spec §3), restricted to
the fields the routing, staging, persistence and watch-tracking logic
inspects: action, title, message, persistent flag, optional tag and the
`until` watch-condition list. -/
structure NotificationRequest where
  action : NotifierAction
  title : String
  message : String
  persistent : Bool
  tag : Option String
  untilConds : List WatchCondition
deriving Repr, DecidableEq

/-- Modelled from the spec: a WatchEntry (spec §3): the tag, the set of
recipient names actually dispatched to, and the `until` conditions. -/
structure WatchEntry where
  tag : String
  recipients_notified : List String
  watch_conditions : List WatchCondition
deriving Repr, DecidableEq

/-- Modelled from the spec: the mutable state of the Tracker (spec §4.2):
the WatchEntry table and the staged-request queue. -/
structure NotifierState where
  watchEntries : List WatchEntry
  stagedRequests : List NotificationRequest
deriving Repr, DecidableEq

/-- Modelled from the spec: the static configuration: the recipient
directory and the proximity threshold (spec §2 "Recipient Directory"). -/
structure NotifierConfig where
  persons : List Person
  proximity_threshold : Int
deriving Repr

/-- A proximity reading for each proximity-sensor entity, as served by the
bus adapter at the moment the routing request is resolved. -/
abbrev Proximity := String → Int

/-- Modelled from the spec: the outbound calls of the Router/Tracker
(spec §6): a per-recipient notification call, a per-recipient
clear-notification call, and a persistent-notification call. -/
inductive ServiceCall where
  | notify (service : String) (title : String) (message : String) (tag : Option String)
  | clear_notification (service : String) (tag : String)
  | persistent_create (title : String) (message : String) (notification_id : String)
deriving Repr, DecidableEq

/-- Minimum of a list of integers, `none` on the empty list. -/
def listMinInt : List Int → Option Int
  | [] => none
  | x :: xs =>
    some (match listMinInt xs with
          | none => x
          | some m => min x m)

/-- Modelled from the spec: recipients whose proximity sensor value is ≤
the configured proximity threshold (spec §4.1, `send_to_present`). -/
def presentPersons (cfg : NotifierConfig) (prox : Proximity) : List Person :=
  cfg.persons.filter (fun p => prox p.proximityId ≤ cfg.proximity_threshold)

/-- Modelled from the spec: recipients whose proximity sensor value is >
the configured proximity threshold (spec §4.1, `send_to_absent`). -/
def absentPersons (cfg : NotifierConfig) (prox : Proximity) : List Person :=
  cfg.persons.filter (fun p => cfg.proximity_threshold < prox p.proximityId)

/-- Modelled from the spec: the recipients with the numerically smallest
proximity value; ties give all tied recipients (spec §4.1,
`send_to_nearest`). -/
def nearestPersons (cfg : NotifierConfig) (prox : Proximity) : List Person :=
  match listMinInt (cfg.persons.map (fun p => prox p.proximityId)) with
  | none => []
  | some m => cfg.persons.filter (fun p => prox p.proximityId = m)

/-- Modelled from the spec: action resolution (spec §4.1 table).
`send_when_present` resolves as `send_to_present`; the staging decision for
it is taken in `route` before resolution is used. -/
def resolveRecipients (cfg : NotifierConfig) (prox : Proximity) :
    NotifierAction → List Person
  | .send_to_person n => cfg.persons.filter (fun p => p.name = n)
  | .send_to_all => cfg.persons
  | .send_to_present => presentPersons cfg prox
  | .send_to_absent => absentPersons cfg prox
  | .send_to_nearest => nearestPersons cfg prox
  | .send_when_present => presentPersons cfg prox

/-- Modelled from the spec: the persistent-notification id is the tag when
present, else the current bus timestamp (spec §4.1: "`notification_id` =
`tag` if present, else ... the current bus timestamp"). -/
def persistentId : Option String → Nat → String
  | some t, _ => t
  | none, now => toString now

/-- Modelled from the spec: the outbound calls of one dispatch: one
notification call per resolved recipient, plus, when `persistent` is true,
one additional persistent-notification call (spec §4.1). -/
def dispatchCalls (recipients : List Person) (req : NotificationRequest)
    (now : Nat) : List ServiceCall :=
  recipients.map (fun p => .notify p.notificationService req.title req.message req.tag)
    ++ (if req.persistent then
          [.persistent_create req.title req.message (persistentId req.tag now)]
        else [])

/-- Modelled from the spec: when `tag` and `until` are both present, the
Router registers a WatchEntry with the tag, the resolved recipient set and
the watch conditions (spec §4.1 last paragraph, §4.2 `register_watch`). -/
def registerWatch (req : NotificationRequest) (recipients : List Person)
    (st : NotifierState) : NotifierState :=
  match req.tag with
  | none => st
  | some t =>
    if req.untilConds = [] then st
    else { st with
           watchEntries :=
             ⟨t, recipients.map (fun p => p.name), req.untilConds⟩ :: st.watchEntries }

/-- Modelled from the spec: `route(request)` (spec §4.1): a
`send_when_present` request with no recipient currently present is staged
and nothing is dispatched; otherwise the action is resolved to a recipient
set, one notification call per recipient is issued (plus the persistent
call when requested) and a tagged+watched request registers its watch. -/
def route (cfg : NotifierConfig) (prox : Proximity) (now : Nat)
    (req : NotificationRequest) (st : NotifierState) :
    NotifierState × List ServiceCall :=
  if req.action = .send_when_present ∧ presentPersons cfg prox = [] then
    ({ st with stagedRequests := st.stagedRequests ++ [req] }, [])
  else
    let recips := resolveRecipients cfg prox req.action
    (registerWatch req recips st, dispatchCalls recips req now)

/-- Modelled from the spec: look up a recipient's notification channel by
name in the directory (the name is the unique key, spec §3). -/
def serviceOf (cfg : NotifierConfig) (name : String) : String :=
  match cfg.persons.find? (fun p => p.name = name) with
  | some p => p.notificationService
  | none => name

/-- Modelled from the spec: `clear(tag)` (spec §4.2): idempotent — with no
WatchEntry under the tag it returns without issuing calls; otherwise it
issues one clear-notification call per recipient recorded in the entry,
cancels the entry's remaining watchers and removes the entry. -/
def clearTag (cfg : NotifierConfig) (t : String) (st : NotifierState) :
    NotifierState × List ServiceCall :=
  match st.watchEntries.find? (fun e => e.tag = t) with
  | none => (st, [])
  | some e =>
    ({ st with watchEntries := st.watchEntries.filter (fun e2 => ¬ e2.tag = t) },
     e.recipients_notified.map (fun n => .clear_notification (serviceOf cfg n) t))

/-- Modelled from the spec: `on_discard_event(tag)` performs `clear(tag)`
(spec §4.2). -/
def onDiscardEvent (cfg : NotifierConfig) (t : String) (st : NotifierState) :
    NotifierState × List ServiceCall :=
  clearTag cfg t st

/-- Modelled from the spec: `on_action_click(tag)` performs `clear(tag)`
(spec §4.2). -/
def onActionClick (cfg : NotifierConfig) (t : String) (st : NotifierState) :
    NotifierState × List ServiceCall :=
  clearTag cfg t st

/-- Modelled from the spec: whether one watch condition matches a state
transition of `entity` from `old` to `new`: the entity must coincide and
each required old/new state, when present, must coincide (spec §4.2
`register_watch`, §6 "until" conditions). -/
def conditionMatches (c : WatchCondition) (entity old new : String) : Bool :=
  c.entity_id = entity
    && (match c.old_state with | none => true | some o => o = old)
    && (match c.new_state with | none => true | some n => n = new)

/-- Modelled from the spec: whether any of an entry's watch conditions
matches the transition (the first condition whose predicate matches
triggers clearing of the whole tag, spec §4.2). -/
def entryMatches (e : WatchEntry) (entity old new : String) : Bool :=
  e.watch_conditions.any (fun c => conditionMatches c entity old new)

/-- Modelled from the spec: the bus adapter delivers a state transition to
the registered one-shot watchers; every tag one of whose conditions
matches is cleared (spec §4.2 `on_watched_state_fired`). -/
def onStateChanged (cfg : NotifierConfig) (entity old new : String)
    (st : NotifierState) : NotifierState × List ServiceCall :=
  let tags := (st.watchEntries.filter (fun e => entryMatches e entity old new)).map
      (fun e => e.tag)
  tags.foldl
    (fun acc t =>
      let r := clearTag cfg t acc.1
      (r.1, acc.2 ++ r.2))
    (st, [])

/-- Modelled from the spec: the home-occupancy watcher (spec §4.2
"Staged-request handling"): on the home-occupied signal transitioning
off→on, every currently staged request is replayed through the Router's
`send_to_present` resolution and the staged queue is cleared. -/
def onHomeOccupiedChanged (cfg : NotifierConfig) (prox : Proximity) (now : Nat)
    (old new : String) (st : NotifierState) : NotifierState × List ServiceCall :=
  if old = "off" ∧ new = "on" then
    st.stagedRequests.foldl
      (fun acc req =>
        let recips := presentPersons cfg prox
        (registerWatch req recips acc.1, acc.2 ++ dispatchCalls recips req now))
      ({ st with stagedRequests := [] }, [])
  else (st, [])

/-- The notification channel of a `notify` call, `none` for the other call
shapes. -/
def ServiceCall.notifyService : ServiceCall → Option String
  | .notify s _ _ _ => some s
  | _ => none

/-- The channels of the per-recipient notification calls in a call list,
in dispatch order. -/
def notifyServices (cs : List ServiceCall) : List String :=
  cs.filterMap ServiceCall.notifyService

/-- The notification id of a persistent-notification call, `none` for the
other call shapes. -/
def ServiceCall.persistentIdOf : ServiceCall → Option String
  | .persistent_create _ _ i => some i
  | _ => none

/-- The notification ids of the persistent-notification calls in a call
list. -/
def persistentIds (cs : List ServiceCall) : List String :=
  cs.filterMap ServiceCall.persistentIdOf

/-- Whether a watch entry under the given tag is outstanding. -/
def hasTag (st : NotifierState) (t : String) : Bool :=
  st.watchEntries.any (fun e => e.tag = t)

/-- First recipient of the test suite's configuration
(test_notifier.py, the `persons` argument of the fixture). -/
def user1 : Person :=
  ⟨"user1", "notify/user1_mobile", "proximity.distance_user1_home"⟩

/-- Second recipient of the test suite's configuration. -/
def user2 : Person :=
  ⟨"user2", "notify/user2_mobile", "proximity.distance_user2_home"⟩

/-- The test suite's recipient directory with its proximity threshold of
500. -/
def testConfig : NotifierConfig := ⟨[user1, user2], 500⟩

/-- A proximity reading placing user1 at `d1` and user2 at `d2`. -/
def proxAt (d1 d2 : Int) : Proximity :=
  fun id => if id = "proximity.distance_user1_home" then d1 else d2

/-- A basic routing request as fired by the tests. -/
def baseRequest : NotificationRequest :=
  ⟨.send_to_all, "Notification Title", "Notification message", false,
   some "notification_tag", []⟩

/-- A tracker state with no outstanding entries and nothing staged. -/
def emptyState : NotifierState := ⟨[], []⟩

/-- A tracker state with one outstanding entry under the test tag. -/
def oneEntryState : NotifierState :=
  ⟨[⟨"notification_tag", ["user1", "user2"], []⟩], []⟩

end Notifier

namespace Automower

/-- Configured messages of the Automower app (apps/automower.py, `self.args`). -/
structure AutomowerArgs where
  message_park_because_of_rain : String
  message_end_of_session_soon : String
  message_lawn_is_dry : String
deriving Repr, DecidableEq

/-- A raw sensor reading as seen by `callback_rain_changed`: either a value
that `float(...)` parses to a number, or one on which `float(...)` raises
(missing / `None` / a non-numeric string such as `"unknow"`).  The readings
the claims exercise are integral, so the numeric payload is an `Int`. -/
inductive RainValue where
  | numeric (x : Int)
  | unparseable
deriving Repr, DecidableEq

/-- The `try: float(old) except: 0.0` conversion of `callback_rain_changed`
(automower.py lines 174-180): an unparseable old reading counts as 0. -/
def parseOld : RainValue → Int
  | .numeric x => x
  | .unparseable => 0

/-- The sun data `callback_rain_changed` consults from the bus:
`get_state("sun.sun", attribute="rising")` (an attribute that may be
absent, and is tested for Python truthiness) and `get_state("sun.sun")`
(the state string). -/
structure SunInfo where
  rising : Option Bool
  state : Option String
deriving Repr, DecidableEq

/-- An observable effect of an Automower callback: a state mutation
(`set_state`), a `number/set_value` service call, another service call
(`vacuum/start`), or a Telegram notification (`send_notification`). -/
inductive MowerCall where
  | set_state (entity : String) (state : String)
  | set_value (entity : String) (value : Int)
  | call_service (command : String) (entity : String)
  | notify (message : String)
deriving Repr, DecidableEq

/-- Embedding of `Automower.force_park` (automower.py lines 95-104): a
`number/set_value` call on `number.nono_park_for` followed by the
notification of the message. -/
def force_park (message : String) (duration : Int) : List MowerCall :=
  [.set_value "number.nono_park_for" duration, .notify message]

/-- Embedding of `Automower.restart_after_rain` (automower.py lines 106-115): start the
mower, notify, and set the rain flag to off. -/
def restart_after_rain (args : AutomowerArgs) : List MowerCall :=
  [.call_service "vacuum/start" "vacuum.nono",
   .notify args.message_lawn_is_dry,
   .set_state "binary_sensor.parked_because_of_rain" "off"]

/-- Embedding of `Automower.callback_rain_changed` (automower.py lines 167-210), as the
list of observable effects.  An unparseable old reading counts as 0; an
unparseable new reading returns immediately.  Rain starting (old 0, new
positive) sets the rain flag on and forces the 60480-minute park.  A new
reading of 0 restarts the mower unless the sun is rising (wait for noon)
or below the horizon (wait for tomorrow noon); any other reading only
logs. -/
def callback_rain_changed (args : AutomowerArgs) (sun : SunInfo)
    (old new : RainValue) : List MowerCall :=
  match new with
  | .unparseable => []
  | .numeric newValue =>
    let oldValue := parseOld old
    if oldValue = 0 ∧ 0 < newValue then
      .set_state "binary_sensor.parked_because_of_rain" "on"
        :: force_park args.message_park_because_of_rain 60480
    else if newValue = 0 then
      if sun.rising = some true then
        [.notify "No rain during last 6h, waiting for noon to restart."]
      else if sun.state = some "below_horizon" then
        [.notify "No rain during last 6h, sun is below horizon, waiting for tomorow noon to restart."]
      else
        restart_after_rain args
    else
      []

/-- Embedding of `Automower.callback_next_start_changed` (automower.py lines 234-287),
as the list of observable effects.  Timestamps are embedded as epoch
seconds: `end_time_local` is the naive calendar end time
(`calendar.nono`'s `end_time` attribute) read in the configured local
timezone, `tz_offset` the offset of that timezone east of UTC in seconds
(so `end_time_local - tz_offset` is the UTC instant the code computes via
`localize(...).astimezone(utc)`), and `next_start` the parsed UTC next
start, `none` embedding the `"unknown"` state.  The notification texts
elide the timestamp the code interpolates into them.  The code computes
`delta` in hours as `(mowing_session_end_utc - next_start_utc)
.total_seconds() / 3600`; `delta < 0` and `delta < 1` on that quotient are
branch-equivalent to `deltaSeconds < 0` and `deltaSeconds < 3600`. -/
def callback_next_start_changed (args : AutomowerArgs)
    (parked_because_of_rain : Bool) (next_start : Option Int)
    (end_time_local : Int) (tz_offset : Int) : List MowerCall :=
  if parked_because_of_rain then
    [.notify "Robot is parked because of rain. Nothing to check."]
  else
    match next_start with
    | none =>
      [.notify "Robot is currently mowing, let it come back to base before checking."]
    | some next_start_utc =>
      let mowing_session_end_utc := end_time_local - tz_offset
      let deltaSeconds := mowing_session_end_utc - next_start_utc
      if deltaSeconds < 0 then
        [.notify "Session completed. Lets restart tomorrow."]
      else if deltaSeconds < 3600 then
        force_park args.message_end_of_session_soon 180
      else
        [.notify "Next start planned."]

/-- The `delta` the code logs, in hours, as an exact rational. -/
def deltaHours (next_start_utc end_time_local tz_offset : Int) : ℚ :=
  ((end_time_local - tz_offset - next_start_utc : Int) : ℚ) / 3600

/-- Whether an effect list forces a park (issues a `number/set_value` call
on the park-duration entity). -/
def forcesPark (calls : List MowerCall) : Bool :=
  calls.any (fun c => match c with | .set_value _ _ => true | _ => false)

end Automower

namespace GarageDoor

/-- The state of the GarageDoor app together with its timer environment:
`now` is the scheduler's clock (seconds), `delayed_notification_handle`
the pending `run_in` timer as the absolute time it fires
(garage_door.py keeps the opaque handle; the model keeps the fire time),
and `alerts` the times at which `send_notification` fired the NOTIFIER
event. -/
structure GarageDoorState where
  now : Nat
  delayed_notification_handle : Option Nat
  alerts : List Nat
deriving Repr, DecidableEq

/-- Embedding of `GarageDoor.send_notification` (garage_door.py lines 162-189): fire
the NOTIFIER event and reset the handle to `None`. -/
def send_notification (st : GarageDoorState) : GarageDoorState :=
  { st with alerts := st.alerts ++ [st.now], delayed_notification_handle := none }

/-- Embedding of `GarageDoor.callback_garage_door_open` (garage_door.py lines 120-141):
with the previous door state in `["on", None]` the notification is sent
immediately; otherwise a delayed notification is scheduled after
`notification_delay` seconds. -/
def callback_garage_door_open (notification_delay : Nat) (old : Option String)
    (st : GarageDoorState) : GarageDoorState :=
  if old = some "on" ∨ old = none then
    send_notification st
  else
    { st with delayed_notification_handle := some (st.now + notification_delay) }

/-- Embedding of `GarageDoor.callback_garage_door_close` (garage_door.py lines
143-160): cancel the pending delayed notification, if any. -/
def callback_garage_door_close (st : GarageDoorState) : GarageDoorState :=
  if st.delayed_notification_handle.isSome then
    { st with delayed_notification_handle := none }
  else st

/-- One second of the scheduler: advance the clock and fire the pending
`run_in` timer when its time is reached (the timer callback is
`send_notification`). -/
def tick (st : GarageDoorState) : GarageDoorState :=
  let st' := { st with now := st.now + 1 }
  match st.delayed_notification_handle with
  | some f => if f ≤ st'.now then send_notification st' else st'
  | none => st'

/-- Run of `k` seconds of the scheduler. -/
def ticks : Nat → GarageDoorState → GarageDoorState
  | 0, st => st
  | k + 1, st => ticks k (tick st)

end GarageDoor

namespace GarageDoor

theorem ticks_handle_none (k : Nat) (st : GarageDoorState)
    (h : st.delayed_notification_handle = none) :
    ticks k st = { st with now := st.now + k } := by
  induction k generalizing st with
  | zero => simp [ticks]
  | succ k ih =>
    have htick : tick st = { st with now := st.now + 1 } := by
      simp [tick, h]
    rw [ticks, htick, ih _ (by simp [h])]
    simp [h]
    omega

theorem ticks_fire_spec (k : Nat) (st : GarageDoorState) (f : Nat)
    (h : st.delayed_notification_handle = some f) (hnow : st.now < f) :
    ticks k st =
      if st.now + k < f then { st with now := st.now + k }
      else
        { now := st.now + k, delayed_notification_handle := none,
          alerts := st.alerts ++ [f] } := by
  induction k generalizing st with
  | zero =>
    simp only [ticks]
    rw [if_pos (by omega : st.now + 0 < f)]
    simp
  | succ k ih =>
    by_cases hfire : f ≤ st.now + 1
    · have hf : f = st.now + 1 := by omega
      have htick : tick st =
          { now := st.now + 1, delayed_notification_handle := none,
            alerts := st.alerts ++ [st.now + 1] } := by
        simp [tick, h, send_notification, hfire]
      rw [ticks, htick, ticks_handle_none _ _ (by simp)]
      have hcond : ¬ st.now + (k + 1) < f := by omega
      simp [hcond, hf]
      omega
    · have htick : tick st = { st with now := st.now + 1 } := by
        simp [tick, h, hfire]
      have hnow2 : st.now + 1 < f := by omega
      rw [ticks, htick, ih { st with now := st.now + 1 } h hnow2]
      by_cases hc : st.now + 1 + k < f
      · have hc2 : st.now + (k + 1) < f := by omega
        rw [if_pos hc, if_pos hc2]
        simp
        omega
      · have hc2 : ¬ st.now + (k + 1) < f := by omega
        rw [if_neg hc, if_neg hc2]
        simp
        omega

theorem ticks_none_fields (k n : Nat) (al : List Nat) :
    ticks k ⟨n, none, al⟩ = ⟨n + k, none, al⟩ := by
  have h := ticks_handle_none k ⟨n, none, al⟩ rfl
  simpa using h

theorem ticks_fire_fields (k n f : Nat) (al : List Nat) (hnow : n < f) :
    ticks k ⟨n, some f, al⟩ =
      if n + k < f then ⟨n + k, some f, al⟩ else ⟨n + k, none, al ++ [f]⟩ := by
  have h := ticks_fire_spec k ⟨n, some f, al⟩ f rfl hnow
  simpa using h

/-- C7: with the sun below the horizon (door watchers active), a door
transition from closed to open schedules one delayed alert that fires
exactly once at expiry of the configured delay if the door stays open, and
none before expiry; a door transition back to closed before the delay
elapses cancels the pending timer, so zero alerts are produced no matter
how much time then passes; and a door found open at automation start
(previous state `"on"` or `None`) produces one immediate alert with no
delay. -/
theorem garage_door_night_alert_behaviour (delay : Nat)
    (st0 : GarageDoorState) (hdelay : 0 < delay) :
    ((∀ k, k < delay →
        (ticks k (callback_garage_door_open delay (some "off") st0)).alerts
          = st0.alerts) ∧
      (∀ m, (ticks (delay + m)
          (callback_garage_door_open delay (some "off") st0)).alerts
          = st0.alerts ++ [st0.now + delay])) ∧
    (∀ j, j < delay → ∀ m,
      (ticks m (callback_garage_door_close
        (ticks j (callback_garage_door_open delay (some "off") st0)))).alerts
          = st0.alerts) ∧
    (∀ old, old = some "on" ∨ old = none →
      callback_garage_door_open delay old st0 =
        { now := st0.now, delayed_notification_handle := none,
          alerts := st0.alerts ++ [st0.now] }) := by
  obtain ⟨n0, hd0, a0⟩ := st0
  have hopen : callback_garage_door_open delay (some "off") ⟨n0, hd0, a0⟩ =
      ⟨n0, some (n0 + delay), a0⟩ := by
    simp [callback_garage_door_open]
  refine ⟨⟨?_, ?_⟩, ?_, ?_⟩
  · intro k hk
    rw [hopen, ticks_fire_fields k n0 (n0 + delay) a0 (by omega)]
    rw [if_pos (by omega : n0 + k < n0 + delay)]
  · intro m
    rw [hopen, ticks_fire_fields (delay + m) n0 (n0 + delay) a0 (by omega)]
    rw [if_neg (by omega : ¬ n0 + (delay + m) < n0 + delay)]
  · intro j hj m
    rw [hopen, ticks_fire_fields j n0 (n0 + delay) a0 (by omega)]
    rw [if_pos (by omega : n0 + j < n0 + delay)]
    have hclose : callback_garage_door_close ⟨n0 + j, some (n0 + delay), a0⟩ =
        ⟨n0 + j, none, a0⟩ := by
      simp [callback_garage_door_close]
    rw [hclose, ticks_none_fields]
  · rintro old (h | h) <;> subst h <;> simp [callback_garage_door_open, send_notification]

/-- Witness for C7 at the configured 600-second delay from a fresh state:
the door opening from closed and staying open yields exactly one alert, at
time 600. -/
theorem garage_door_night_alert_behaviour_witness :
    0 < 600 ∧
      (ticks (600 + 0) (callback_garage_door_open 600 (some "off")
        ⟨0, none, []⟩)).alerts = ([] : List Nat) ++ [0 + 600] :=
  ⟨by decide,
   (garage_door_night_alert_behaviour 600 ⟨0, none, []⟩ (by decide)).1.2 0⟩

end GarageDoor

namespace Automower

/-- C8: a rain-sensor change from old value 0 to a positive new value
always sets the rain flag on and forces the long (60480-minute) park,
whatever the sun data say; a change whose new value is 0 emits the
restart (`vacuum/start` plus clearing the flag) exactly when the sun is
neither rising nor below the horizon, and in the other branches only
notifies, without parking and without restarting. -/
theorem automower_rain_rule (args : AutomowerArgs) (sun : SunInfo)
    (old : RainValue) (newValue : Int) :
    (parseOld old = 0 → 0 < newValue →
      callback_rain_changed args sun old (.numeric newValue) =
        [.set_state "binary_sensor.parked_because_of_rain" "on",
         .set_value "number.nono_park_for" 60480,
         .notify args.message_park_because_of_rain]) ∧
    ((MowerCall.set_state "binary_sensor.parked_because_of_rain" "off") ∈
        callback_rain_changed args sun old (.numeric 0) ↔
      ¬ sun.rising = some true ∧ ¬ sun.state = some "below_horizon") ∧
    ((MowerCall.call_service "vacuum/start" "vacuum.nono") ∈
        callback_rain_changed args sun old (.numeric 0) ↔
      ¬ sun.rising = some true ∧ ¬ sun.state = some "below_horizon") ∧
    (sun.rising = some true ∨ sun.state = some "below_horizon" →
      forcesPark (callback_rain_changed args sun old (.numeric 0)) = false ∧
      ∃ msg, callback_rain_changed args sun old (.numeric 0) = [.notify msg]) := by
  refine ⟨?_, ?_, ?_, ?_⟩
  · intro h0 hpos
    simp [callback_rain_changed, h0, hpos, force_park]
  · by_cases hr : sun.rising = some true <;>
      by_cases hs : sun.state = some "below_horizon" <;>
      simp [callback_rain_changed, restart_after_rain, hr, hs]
  · by_cases hr : sun.rising = some true <;>
      by_cases hs : sun.state = some "below_horizon" <;>
      simp [callback_rain_changed, restart_after_rain, hr, hs]
  · rintro (hr | hs)
    · simp [callback_rain_changed, forcesPark, hr]
    · by_cases hr : sun.rising = some true <;>
        simp [callback_rain_changed, forcesPark, hr, hs]

/-- Witness for C8 at a concrete input: old reading 0, new reading 1,
sun rising unknown: the flag is set and the long park forced. -/
theorem automower_rain_rule_witness :
    parseOld (RainValue.numeric 0) = 0 ∧ (0 : Int) < 1 ∧
      callback_rain_changed ⟨"rain", "session", "dry"⟩ ⟨none, none⟩
          (.numeric 0) (.numeric 1) =
        [.set_state "binary_sensor.parked_because_of_rain" "on",
         .set_value "number.nono_park_for" 60480,
         .notify "rain"] :=
  ⟨by decide, by decide,
   (automower_rain_rule ⟨"rain", "session", "dry"⟩ ⟨none, none⟩
     (.numeric 0) 1).1 (by decide) (by decide)⟩

/-- C10: robustness of the rain callback at its interface: an old reading
on which `float` raises is treated as 0, so a jump from an unavailable
reading to a positive value still sets the flag and forces the long park;
a new reading on which `float` raises makes the callback return without
any service call or state change. -/
theorem automower_rain_robustness (args : AutomowerArgs) (sun : SunInfo)
    (old : RainValue) (newValue : Int) :
    (0 < newValue →
      callback_rain_changed args sun .unparseable (.numeric newValue) =
        [.set_state "binary_sensor.parked_because_of_rain" "on",
         .set_value "number.nono_park_for" 60480,
         .notify args.message_park_because_of_rain]) ∧
    callback_rain_changed args sun old .unparseable = [] := by
  constructor
  · intro hpos
    simp [callback_rain_changed, parseOld, hpos, force_park]
  · rfl

/-- Witness for C10 at a concrete input: an unavailable old reading
followed by reading 2 forces the park; an unavailable new reading does
nothing. -/
theorem automower_rain_robustness_witness :
    (0 : Int) < 2 ∧
      callback_rain_changed ⟨"rain", "session", "dry"⟩ ⟨some true, none⟩
          .unparseable (.numeric 2) =
        [.set_state "binary_sensor.parked_because_of_rain" "on",
         .set_value "number.nono_park_for" 60480,
         .notify "rain"] :=
  ⟨by decide,
   (automower_rain_robustness ⟨"rain", "session", "dry"⟩ ⟨some true, none⟩
     .unparseable 2).1 (by decide)⟩

/-- C9: with the robot not parked for rain and the next start known, the
session watcher parks for 180 minutes exactly when the difference in hours
between the timezone-normalized session end and the next start is
non-negative and below the 1-hour threshold; a negative difference
(session completed) or a difference of at least 1 hour issues no park
command. -/
theorem automower_session_rule (args : AutomowerArgs)
    (next_start_utc end_time_local tz_offset : Int) :
    (forcesPark (callback_next_start_changed args false (some next_start_utc)
        end_time_local tz_offset) = true ↔
      0 ≤ deltaHours next_start_utc end_time_local tz_offset ∧
        deltaHours next_start_utc end_time_local tz_offset < 1) ∧
    (0 ≤ deltaHours next_start_utc end_time_local tz_offset →
      deltaHours next_start_utc end_time_local tz_offset < 1 →
      callback_next_start_changed args false (some next_start_utc)
          end_time_local tz_offset =
        [.set_value "number.nono_park_for" 180,
         .notify args.message_end_of_session_soon]) := by
  have hnn : (0 ≤ deltaHours next_start_utc end_time_local tz_offset ↔
      0 ≤ end_time_local - tz_offset - next_start_utc) := by
    rw [deltaHours, le_div_iff₀ (by norm_num : (0 : ℚ) < 3600)]
    simp
    exact_mod_cast Iff.rfl
  have hlt1 : (deltaHours next_start_utc end_time_local tz_offset < 1 ↔
      end_time_local - tz_offset - next_start_utc < 3600) := by
    rw [deltaHours, div_lt_one (by norm_num : (0 : ℚ) < 3600)]
    exact_mod_cast Iff.rfl
  constructor
  · rw [hnn, hlt1]
    by_cases hneg : end_time_local - tz_offset - next_start_utc < 0
    · simp [callback_next_start_changed, forcesPark, hneg]
      all_goals omega
    · by_cases hlt : end_time_local - tz_offset - next_start_utc < 3600
      · simp [callback_next_start_changed, forcesPark, force_park, hneg, hlt]
        all_goals omega
      · simp [callback_next_start_changed, forcesPark, hneg, hlt]
  · rw [hnn, hlt1]
    intro h0 h1
    have hneg : ¬ end_time_local - tz_offset - next_start_utc < 0 := by omega
    simp [callback_next_start_changed, force_park, h1, hneg]

/-- Witness for C9 at a concrete input: session end 7200 s local with a
3600 s offset (so 3600 s UTC), next start 2000 s UTC: 1600 s ≈ 0.44 h of
session remain, so the 180-minute park is forced. -/
theorem automower_session_rule_witness :
    0 ≤ deltaHours 2000 7200 3600 ∧ deltaHours 2000 7200 3600 < 1 ∧
      callback_next_start_changed ⟨"rain", "session", "dry"⟩ false (some 2000)
          7200 3600 =
        [.set_value "number.nono_park_for" 180, .notify "session"] :=
  ⟨by norm_num [deltaHours], by norm_num [deltaHours],
   (automower_session_rule ⟨"rain", "session", "dry"⟩ 2000 7200 3600).2
     (by norm_num [deltaHours]) (by norm_num [deltaHours])⟩

end Automower

namespace Notifier

theorem notifyServices_dispatchCalls (recipients : List Person)
    (req : NotificationRequest) (now : Nat) :
    notifyServices (dispatchCalls recipients req now) =
      recipients.map (fun p => p.notificationService) := by
  unfold notifyServices dispatchCalls
  rw [List.filterMap_append]
  have h1 : (recipients.map (fun p =>
      ServiceCall.notify p.notificationService req.title req.message req.tag)).filterMap
        ServiceCall.notifyService = recipients.map (fun p => p.notificationService) := by
    induction recipients with
    | nil => rfl
    | cons p ps ih => simp [List.filterMap_cons, ServiceCall.notifyService, ih]
  rw [h1]
  cases req.persistent <;> simp [ServiceCall.notifyService]

theorem persistentIds_dispatchCalls (recipients : List Person)
    (req : NotificationRequest) (now : Nat) :
    persistentIds (dispatchCalls recipients req now) =
      if req.persistent then [persistentId req.tag now] else [] := by
  unfold persistentIds dispatchCalls
  rw [List.filterMap_append]
  have h1 : (recipients.map (fun p =>
      ServiceCall.notify p.notificationService req.title req.message req.tag)).filterMap
        ServiceCall.persistentIdOf = [] := by
    induction recipients with
    | nil => rfl
    | cons p ps ih => simp [List.filterMap_cons, ServiceCall.persistentIdOf, ih]
  rw [h1]
  cases req.persistent <;> simp [ServiceCall.persistentIdOf]

/-- C1: for every configuration, proximity reading and request payload,
routing with `send_to_present` dispatches one notification to exactly the
recipients whose proximity value is ≤ the threshold, routing with
`send_to_absent` to exactly those whose value is > the threshold, and
whenever a recipient's reading differs from the threshold that recipient
lies in exactly one of the two resolved sets, so the sets partition the
directory. -/
theorem notifier_present_absent_partition (cfg : NotifierConfig)
    (prox : Proximity) (now : Nat) (req : NotificationRequest)
    (st : NotifierState) :
    notifyServices (route cfg prox now { req with action := .send_to_present } st).2 =
      (cfg.persons.filter
        (fun p => prox p.proximityId ≤ cfg.proximity_threshold)).map
        (fun p => p.notificationService) ∧
    notifyServices (route cfg prox now { req with action := .send_to_absent } st).2 =
      (cfg.persons.filter
        (fun p => cfg.proximity_threshold < prox p.proximityId)).map
        (fun p => p.notificationService) ∧
    (∀ p ∈ cfg.persons, prox p.proximityId ≠ cfg.proximity_threshold →
      (p ∈ presentPersons cfg prox ∨ p ∈ absentPersons cfg prox) ∧
      ¬ (p ∈ presentPersons cfg prox ∧ p ∈ absentPersons cfg prox)) := by
  refine ⟨?_, ?_, ?_⟩
  · simp [route, resolveRecipients, presentPersons, notifyServices_dispatchCalls]
  · simp [route, resolveRecipients, absentPersons, notifyServices_dispatchCalls]
  · intro p hp hne
    simp only [presentPersons, absentPersons, List.mem_filter, decide_eq_true_eq]
    constructor
    · by_cases h : prox p.proximityId ≤ cfg.proximity_threshold
      · exact Or.inl ⟨hp, h⟩
      · exact Or.inr ⟨hp, by omega⟩
    · rintro ⟨⟨-, h1⟩, ⟨-, h2⟩⟩
      omega

/-- C2: for every pair of recipients, `send_to_nearest` dispatches to
exactly the recipient with the numerically smaller proximity value when
the two values differ, and to both recipients when the values are equal. -/
theorem notifier_send_to_nearest_pair (p1 p2 : Person) (thr : Int)
    (prox : Proximity) (now : Nat) (req : NotificationRequest)
    (st : NotifierState) :
    (prox p1.proximityId < prox p2.proximityId →
      notifyServices (route ⟨[p1, p2], thr⟩ prox now
        { req with action := .send_to_nearest } st).2 = [p1.notificationService]) ∧
    (prox p2.proximityId < prox p1.proximityId →
      notifyServices (route ⟨[p1, p2], thr⟩ prox now
        { req with action := .send_to_nearest } st).2 = [p2.notificationService]) ∧
    (prox p1.proximityId = prox p2.proximityId →
      notifyServices (route ⟨[p1, p2], thr⟩ prox now
        { req with action := .send_to_nearest } st).2 =
        [p1.notificationService, p2.notificationService]) := by
  have hroute : notifyServices (route ⟨[p1, p2], thr⟩ prox now
      { req with action := .send_to_nearest } st).2 =
      (nearestPersons ⟨[p1, p2], thr⟩ prox).map (fun p => p.notificationService) := by
    simp [route, resolveRecipients, notifyServices_dispatchCalls]
  refine ⟨?_, ?_, ?_⟩ <;> intro h <;> rw [hroute] <;>
    simp only [nearestPersons, listMinInt, List.map_cons, List.map_nil]
  · rw [min_eq_left h.le]
    simp [List.filter, h.ne']
  · rw [min_eq_right h.le]
    simp [List.filter, h.ne']
  · rw [h, min_self]
    simp [List.filter, h]

/-- Witness for C1: user1 at distance 1, user2 at 1000, threshold 500:
`send_to_present` dispatches exactly to user1, and user1 lies in exactly
one of the two resolved sets. -/
theorem notifier_present_absent_partition_witness :
    notifyServices (route testConfig (proxAt 1 1000) 0
        { baseRequest with action := .send_to_present } emptyState).2 =
      ["notify/user1_mobile"] ∧
    (user1 ∈ testConfig.persons ∧
      proxAt 1 1000 user1.proximityId ≠ testConfig.proximity_threshold) ∧
    ((user1 ∈ presentPersons testConfig (proxAt 1 1000) ∨
        user1 ∈ absentPersons testConfig (proxAt 1 1000)) ∧
      ¬ (user1 ∈ presentPersons testConfig (proxAt 1 1000) ∧
        user1 ∈ absentPersons testConfig (proxAt 1 1000))) :=
  ⟨(notifier_present_absent_partition testConfig (proxAt 1 1000) 0 baseRequest
      emptyState).1.trans (by decide),
   ⟨by decide, by decide⟩,
   (notifier_present_absent_partition testConfig (proxAt 1 1000) 0 baseRequest
      emptyState).2.2 user1 (by decide) (by decide)⟩

/-- Witness for C2: user1 at distance 1 is strictly nearer than user2 at
1000, so `send_to_nearest` dispatches exactly to user1. -/
theorem notifier_send_to_nearest_pair_witness :
    proxAt 1 1000 user1.proximityId < proxAt 1 1000 user2.proximityId ∧
    notifyServices (route ⟨[user1, user2], 500⟩ (proxAt 1 1000) 0
        { baseRequest with action := .send_to_nearest } emptyState).2 =
      ["notify/user1_mobile"] :=
  ⟨by decide,
   ((notifier_send_to_nearest_pair user1 user2 500 (proxAt 1 1000) 0
      baseRequest emptyState).1 (by decide)).trans (by decide)⟩

theorem find?_filter_tag_ne (entries : List WatchEntry) (t : String) :
    (entries.filter (fun e2 => ¬ e2.tag = t)).find? (fun e => e.tag = t) = none := by
  rw [List.find?_eq_none]
  intro e he
  have := List.of_mem_filter he
  simpa using this

/-- C5: the clear operation is idempotent per tag: clearing a tag with no
outstanding watch entry is a no-op that changes nothing and issues no
call, and a second clear of the same tag right after a first one (for
example through the discard event racing with a watched-state transition)
issues no clear-notification call. -/
theorem clearTag_of_find?_none (cfg : NotifierConfig) (t : String)
    (s : NotifierState)
    (h : s.watchEntries.find? (fun e => e.tag = t) = none) :
    clearTag cfg t s = (s, []) := by
  simp [clearTag, h]

theorem notifier_clear_idempotent (cfg : NotifierConfig) (t : String)
    (st : NotifierState) :
    (hasTag st t = false → clearTag cfg t st = (st, [])) ∧
    (onDiscardEvent cfg t (clearTag cfg t st).1).2 = [] := by
  constructor
  · intro h
    have h' : ∀ x ∈ st.watchEntries, ¬ x.tag = t := by
      simpa [hasTag] using h
    refine clearTag_of_find?_none cfg t st ?_
    rw [List.find?_eq_none]
    intro e he
    simpa using h' e he
  · rcases hfind : st.watchEntries.find? (fun e => e.tag = t) with _ | e
    · rw [onDiscardEvent, clearTag_of_find?_none cfg t st hfind,
        clearTag_of_find?_none cfg t st hfind]
    · have h2 : ((clearTag cfg t st).1).watchEntries =
          st.watchEntries.filter (fun e2 => ¬ e2.tag = t) := by
        simp [clearTag, hfind]
      have h3 : ((clearTag cfg t st).1).watchEntries.find?
          (fun e => e.tag = t) = none := by
        rw [h2]
        exact find?_filter_tag_ne st.watchEntries t
      rw [onDiscardEvent, clearTag_of_find?_none cfg t _ h3]

/-- C6: for every request routed with `persistent = true` that is actually
dispatched (not staged by `send_when_present` with nobody home), exactly
one persistent-notification call is issued; its `notification_id` is the
request's tag when a tag is present, and the current bus timestamp when
the tag is omitted. -/
theorem notifier_persistent_roundtrip (cfg : NotifierConfig)
    (prox : Proximity) (now : Nat) (req : NotificationRequest)
    (st : NotifierState) (hp : req.persistent = true)
    (hns : ¬ (req.action = .send_when_present ∧ presentPersons cfg prox = [])) :
    (∀ t, req.tag = some t → persistentIds (route cfg prox now req st).2 = [t]) ∧
    (req.tag = none → persistentIds (route cfg prox now req st).2 = [toString now]) := by
  have hcalls : (route cfg prox now req st).2 =
      dispatchCalls (resolveRecipients cfg prox req.action) req now := by
    simp [route, hns]
  constructor
  · intro t ht
    rw [hcalls, persistentIds_dispatchCalls, if_pos hp, ht]
    rfl
  · intro ht
    rw [hcalls, persistentIds_dispatchCalls, if_pos hp, ht]
    rfl

/-- Witness for C5: clearing the test tag on an empty tracker is a no-op,
and a discard event arriving right after a clear that did remove the
test tag's entry issues no further call. -/
theorem notifier_clear_idempotent_witness :
    hasTag emptyState "notification_tag" = false ∧
    clearTag testConfig "notification_tag" emptyState = (emptyState, []) ∧
    (onDiscardEvent testConfig "notification_tag"
      (clearTag testConfig "notification_tag" oneEntryState).1).2 = [] :=
  ⟨by decide,
   (notifier_clear_idempotent testConfig "notification_tag" emptyState).1
     (by decide),
   (notifier_clear_idempotent testConfig "notification_tag" oneEntryState).2⟩

/-- Witness for C6 at the test's timestamp 42: with the tag present the
persistent call carries the tag as its id; with the tag omitted it
carries `"42"`. -/
theorem notifier_persistent_roundtrip_witness :
    ({ baseRequest with persistent := true } : NotificationRequest).persistent
        = true ∧
    ¬ (({ baseRequest with persistent := true } : NotificationRequest).action
        = .send_when_present ∧ presentPersons testConfig (proxAt 1 1) = []) ∧
    persistentIds (route testConfig (proxAt 1 1) 42
        { baseRequest with persistent := true } emptyState).2 =
      ["notification_tag"] ∧
    persistentIds (route testConfig (proxAt 1 1) 42
        { baseRequest with persistent := true, tag := none } emptyState).2 =
      ["42"] :=
  ⟨rfl, by decide,
   (notifier_persistent_roundtrip testConfig (proxAt 1 1) 42
      { baseRequest with persistent := true } emptyState rfl (by decide)).1
     "notification_tag" rfl,
   ((notifier_persistent_roundtrip testConfig (proxAt 1 1) 42
      { baseRequest with persistent := true, tag := none } emptyState rfl
      (by decide)).2 rfl).trans (by decide)⟩

theorem onStateChanged_of_empty (cfg : NotifierConfig) (entity old new : String)
    (s : NotifierState) (h : s.watchEntries = []) :
    onStateChanged cfg entity old new s = (s, []) := by
  simp [onStateChanged, h]

theorem registerWatch_stagedRequests (req : NotificationRequest)
    (recipients : List Person) (s : NotifierState) :
    (registerWatch req recipients s).stagedRequests = s.stagedRequests := by
  unfold registerWatch
  cases htg : req.tag with
  | none => rfl
  | some t => by_cases h : req.untilConds = [] <;> simp [h]

theorem onHomeOccupiedChanged_of_no_staged (cfg : NotifierConfig)
    (prox : Proximity) (now : Nat) (old new : String) (s : NotifierState)
    (h : s.stagedRequests = []) :
    (onHomeOccupiedChanged cfg prox now old new s).2 = [] := by
  unfold onHomeOccupiedChanged
  split
  · rw [h]
    rfl
  · rfl

/-- C4: after dispatching a tagged notification whose `until` condition is
`{entity_id := x, new_state := s}` (starting from a tracker with no
outstanding entries), clearing any other tag leaves this tag's watch entry
in place; the moment `x` transitions to `s`, exactly one
clear-notification call is issued per recipient originally notified under
the tag and the entry's watchers are removed; and a second transition of
`x` to `s` afterwards issues no further call. -/
theorem notifier_until_clear_exactly_once (cfg : NotifierConfig)
    (prox : Proximity) (now : Nat) (req : NotificationRequest)
    (st0 : NotifierState) (x s t : String)
    (hW : st0.watchEntries = [])
    (hact : req.action = .send_to_all)
    (htag : req.tag = some t)
    (huntil : req.untilConds = [⟨x, none, some s⟩]) :
    (∀ t2, t2 ≠ t →
      hasTag (clearTag cfg t2 (route cfg prox now req st0).1).1 t = true) ∧
    (∀ old,
      (onStateChanged cfg x old s (route cfg prox now req st0).1).2 =
        cfg.persons.map
          (fun p => ServiceCall.clear_notification (serviceOf cfg p.name) t) ∧
      hasTag (onStateChanged cfg x old s (route cfg prox now req st0).1).1 t
        = false) ∧
    (∀ old old2,
      (onStateChanged cfg x old2 s
        (onStateChanged cfg x old s (route cfg prox now req st0).1).1).2 = []) := by
  have hne : ¬ (req.action = .send_when_present ∧ presentPersons cfg prox = []) := by
    simp [hact]
  have hst1 : (route cfg prox now req st0).1 =
      { st0 with watchEntries :=
          [⟨t, cfg.persons.map (fun p => p.name), [⟨x, none, some s⟩]⟩] } := by
    simp [route, hne, hact, resolveRecipients, registerWatch, htag, huntil, hW]
  refine ⟨?_, ?_, ?_⟩
  · intro t2 ht2
    rw [hst1]
    simp [clearTag, hasTag, List.find?, Ne.symm ht2]
  · intro old
    rw [hst1]
    simp [onStateChanged, entryMatches, conditionMatches, clearTag, List.find?,
      hasTag, List.map_map, Function.comp]
  · intro old old2
    have h1 : (onStateChanged cfg x old s (route cfg prox now req st0).1).1.watchEntries
        = [] := by
      rw [hst1]
      simp [onStateChanged, entryMatches, conditionMatches, clearTag, List.find?]
    rw [onStateChanged_of_empty cfg x old2 s _ h1]

/-- Witness for C4 with the garage-style watch `sun.sun → above_horizon`
under the test tag: clearing another tag keeps the entry, the watched
transition clears once per recipient, and a second transition clears
nothing. -/
theorem notifier_until_clear_exactly_once_witness :
    ("other_tag" : String) ≠ "notification_tag" ∧
    hasTag (clearTag testConfig "other_tag"
        (route testConfig (proxAt 1 1) 0
          { baseRequest with
              untilConds := [⟨"sun.sun", none, some "above_horizon"⟩] }
          emptyState).1).1 "notification_tag" = true ∧
    (onStateChanged testConfig "sun.sun" "below_horizon" "above_horizon"
        (route testConfig (proxAt 1 1) 0
          { baseRequest with
              untilConds := [⟨"sun.sun", none, some "above_horizon"⟩] }
          emptyState).1).2 =
      [.clear_notification "notify/user1_mobile" "notification_tag",
       .clear_notification "notify/user2_mobile" "notification_tag"] ∧
    (onStateChanged testConfig "sun.sun" "below_horizon" "above_horizon"
        (onStateChanged testConfig "sun.sun" "below_horizon" "above_horizon"
          (route testConfig (proxAt 1 1) 0
            { baseRequest with
                untilConds := [⟨"sun.sun", none, some "above_horizon"⟩] }
            emptyState).1).1).2 = [] :=
  ⟨by decide,
   (notifier_until_clear_exactly_once testConfig (proxAt 1 1) 0
      { baseRequest with
          untilConds := [⟨"sun.sun", none, some "above_horizon"⟩] }
      emptyState "sun.sun" "above_horizon" "notification_tag"
      rfl rfl rfl rfl).1 "other_tag" (by decide),
   ((notifier_until_clear_exactly_once testConfig (proxAt 1 1) 0
      { baseRequest with
          untilConds := [⟨"sun.sun", none, some "above_horizon"⟩] }
      emptyState "sun.sun" "above_horizon" "notification_tag"
      rfl rfl rfl rfl).2.1 "below_horizon").1.trans (by decide),
   (notifier_until_clear_exactly_once testConfig (proxAt 1 1) 0
      { baseRequest with
          untilConds := [⟨"sun.sun", none, some "above_horizon"⟩] }
      emptyState "sun.sun" "above_horizon" "notification_tag"
      rfl rfl rfl rfl).2.2 "below_horizon" "below_horizon"⟩

/-- C3: routing a `send_when_present` request while every recipient's
proximity value is above the threshold dispatches nothing and stages the
request; the first subsequent off→on transition of the home-occupied
signal replays it, dispatching exactly to the recipients present at replay
time (hence only to the first arriving user while the other is still
away), and after the replay any further home-occupied callback — in
particular the one a later second arrival could produce — dispatches
nothing more. -/
theorem notifier_send_when_present_staging (cfg : NotifierConfig)
    (prox0 prox1 prox2 : Proximity) (now0 now1 now2 : Nat)
    (req : NotificationRequest) (st0 : NotifierState)
    (hact : req.action = .send_when_present)
    (hstage : st0.stagedRequests = [])
    (habsent : ∀ p ∈ cfg.persons,
      cfg.proximity_threshold < prox0 p.proximityId) :
    (route cfg prox0 now0 req st0).2 = [] ∧
    (route cfg prox0 now0 req st0).1.stagedRequests = [req] ∧
    notifyServices (onHomeOccupiedChanged cfg prox1 now1 "off" "on"
        (route cfg prox0 now0 req st0).1).2 =
      (presentPersons cfg prox1).map (fun p => p.notificationService) ∧
    (onHomeOccupiedChanged cfg prox1 now1 "off" "on"
        (route cfg prox0 now0 req st0).1).1.stagedRequests = [] ∧
    (∀ old new,
      (onHomeOccupiedChanged cfg prox2 now2 old new
        (onHomeOccupiedChanged cfg prox1 now1 "off" "on"
          (route cfg prox0 now0 req st0).1).1).2 = []) := by
  have hpres : presentPersons cfg prox0 = [] := by
    rw [presentPersons, List.filter_eq_nil_iff]
    intro p hp
    have := habsent p hp
    simp
    omega
  have hr : route cfg prox0 now0 req st0 =
      ({ st0 with stagedRequests := st0.stagedRequests ++ [req] }, []) := by
    simp [route, hact, hpres]
  have hocc : onHomeOccupiedChanged cfg prox1 now1 "off" "on"
      (route cfg prox0 now0 req st0).1 =
      (registerWatch req (presentPersons cfg prox1)
         { st0 with stagedRequests := [] },
       dispatchCalls (presentPersons cfg prox1) req now1) := by
    rw [hr]
    simp [onHomeOccupiedChanged, hstage]
  refine ⟨by rw [hr], by rw [hr]; simp [hstage], ?_, ?_, ?_⟩
  · rw [hocc]
    exact notifyServices_dispatchCalls _ _ _
  · rw [hocc]
    exact registerWatch_stagedRequests _ _ _
  · intro old new
    refine onHomeOccupiedChanged_of_no_staged cfg prox2 now2 old new _ ?_
    rw [hocc]
    exact registerWatch_stagedRequests _ _ _

/-- Witness for C3: both users at 1000 (nobody present) at fire time: no
dispatch; user1 then arrives (distance 1) and the off→on replay notifies
exactly user1; after a second arrival the home-occupied callback sends
nothing more. -/
theorem notifier_send_when_present_staging_witness :
    (route testConfig (proxAt 1000 1000) 0
        { baseRequest with action := .send_when_present } emptyState).2 = [] ∧
    notifyServices (onHomeOccupiedChanged testConfig (proxAt 1 1000) 1 "off" "on"
        (route testConfig (proxAt 1000 1000) 0
          { baseRequest with action := .send_when_present } emptyState).1).2 =
      ["notify/user1_mobile"] ∧
    (onHomeOccupiedChanged testConfig (proxAt 1 1) 2 "on" "on"
        (onHomeOccupiedChanged testConfig (proxAt 1 1000) 1 "off" "on"
          (route testConfig (proxAt 1000 1000) 0
            { baseRequest with action := .send_when_present } emptyState).1).1).2
      = [] :=
  ⟨(notifier_send_when_present_staging testConfig (proxAt 1000 1000)
      (proxAt 1 1000) (proxAt 1 1) 0 1 2
      { baseRequest with action := .send_when_present } emptyState
      rfl rfl (by decide)).1,
   ((notifier_send_when_present_staging testConfig (proxAt 1000 1000)
      (proxAt 1 1000) (proxAt 1 1) 0 1 2
      { baseRequest with action := .send_when_present } emptyState
      rfl rfl (by decide)).2.2.1).trans (by decide),
   (notifier_send_when_present_staging testConfig (proxAt 1000 1000)
      (proxAt 1 1000) (proxAt 1 1) 0 1 2
      { baseRequest with action := .send_when_present } emptyState
      rfl rfl (by decide)).2.2.2.2 "on" "on"⟩

end Notifier
